import Mathlib

/-!
Shallow embedding of the VintageFinance front-end modules
(`static/js/charts.js` and `static/js/main.js`) and proofs about their
chart-data-preparation and UI-interaction contracts.

Numbers are modelled as exact rationals (`ℚ`); the IEEE-special values
`NaN`/`Infinity` that JavaScript arithmetic can produce are modelled
explicitly by the `JSNum` type where the code can reach them.
DOM state (form fields, toasts, chart handles) is modelled by explicit
record types, and event handlers as state-transforming functions; an
uncaught JavaScript exception is modelled as an `Option JsException` /
`Except JsException` result.
-/

attribute [local semireducible] Rat.add Rat.mul Rat.inv

namespace VintageFinance

/-! ### Generic helpers: JS array/string/number primitives used by the code -/

/-- `Array.prototype.map((x, index) => f index x)` starting at index `k`. -/
def jsMapIdxGo (f : Nat → α → β) : Nat → List α → List β
  | _, [] => []
  | i, a :: as => f i a :: jsMapIdxGo f (i + 1) as

/-- `Array.prototype.map((x, index) => f index x)`. -/
def jsMapIdx (f : Nat → α → β) (l : List α) : List β :=
  jsMapIdxGo f 0 l

/-- The character for a decimal digit `d < 10`. -/
def digitChar (d : Nat) : Char := Char.ofNat (48 + d)

/-- Fuel-driven base-10 digit rendering (most significant digit first). -/
def natDigitsAux : Nat → Nat → List Char
  | 0, _ => []
  | fuel + 1, n =>
    if n < 10 then [digitChar n]
    else natDigitsAux fuel (n / 10) ++ [digitChar (n % 10)]

/-- Base-10 digits of a natural number, e.g. `natDigits 120 = ['1','2','0']`. -/
def natDigits (n : Nat) : List Char := natDigitsAux (n + 1) n

/-- Decimal rendering of an integer, with a leading `'-'` when negative. -/
def intDigits (n : Int) : List Char :=
  if n < 0 then '-' :: natDigits n.natAbs else natDigits n.toNat

/-- `value.toFixed(0)` as an integer: round to nearest, ties to the larger
candidate (the ECMAScript `toFixed` tie rule), i.e. `⌊q + 1/2⌋`. -/
def toFixed0Int (q : ℚ) : Int := Rat.floor (q + 1/2)

/-- The integer `n` with `n / 10` closest to `q` (ties to the larger `n`),
backing `value.toFixed(1)`. -/
def toFixed1Int (q : ℚ) : Int := Rat.floor (q * 10 + 1/2)

/-- The integer `n` with `n / 100` closest to `q` (ties to the larger `n`),
backing `value.toFixed(2)`. -/
def toFixed2Int (q : ℚ) : Int := Rat.floor (q * 100 + 1/2)

/-- `value.toFixed(0)` on a finite value: no decimal point is ever printed. -/
def toFixed0Chars (q : ℚ) : List Char := intDigits (toFixed0Int q)

/-- `value.toFixed(1)` on a finite value: integer part, `'.'`, one digit. -/
def toFixed1Chars (q : ℚ) : List Char :=
  ((if toFixed1Int q < 0 then ['-'] else []) ++ natDigits ((toFixed1Int q).natAbs / 10)) ++
    '.' :: [digitChar ((toFixed1Int q).natAbs % 10)]

/-- `value.toFixed(2)` on a finite value: integer part, `'.'`, two digits. -/
def toFixed2Chars (q : ℚ) : List Char :=
  ((if toFixed2Int q < 0 then ['-'] else []) ++ natDigits ((toFixed2Int q).natAbs / 100)) ++
    '.' :: digitChar ((toFixed2Int q).natAbs / 10 % 10) :: [digitChar ((toFixed2Int q).natAbs % 10)]

def toFixed0Str (q : ℚ) : String := ⟨toFixed0Chars q⟩

def toFixed1Str (q : ℚ) : String := ⟨toFixed1Chars q⟩

def toFixed2Str (q : ℚ) : String := ⟨toFixed2Chars q⟩

/-- A JavaScript number as produced by the arithmetic in this module: either a
finite (exact rational) value or one of the IEEE special values that division
and multiplication can produce. (`-0` is not distinguished from `0`; no code
path here observes the difference.) -/
inductive JSNum where
  | fin : ℚ → JSNum
  | nan : JSNum
  | posInf : JSNum
  | negInf : JSNum
deriving DecidableEq

/-- JavaScript `/` on numbers: `0/0 = NaN`, `x/0 = ±Infinity` for `x ≠ 0`. -/
def jsDiv : JSNum → JSNum → JSNum
  | .nan, _ => .nan
  | _, .nan => .nan
  | .fin a, .fin b =>
    if b = 0 then
      if a = 0 then .nan else if 0 < a then .posInf else .negInf
    else .fin (a / b)
  | .fin _, .posInf => .fin 0
  | .fin _, .negInf => .fin 0
  | .posInf, .fin b => if 0 ≤ b then .posInf else .negInf
  | .negInf, .fin b => if 0 ≤ b then .negInf else .posInf
  | .posInf, _ => .nan
  | .negInf, _ => .nan

/-- JavaScript `*` on numbers: `0 * Infinity = NaN`, signs propagate. -/
def jsMul : JSNum → JSNum → JSNum
  | .nan, _ => .nan
  | _, .nan => .nan
  | .fin a, .fin b => .fin (a * b)
  | .fin a, .posInf => if a = 0 then .nan else if 0 < a then .posInf else .negInf
  | .fin a, .negInf => if a = 0 then .nan else if 0 < a then .negInf else .posInf
  | .posInf, .fin b => if b = 0 then .nan else if 0 < b then .posInf else .negInf
  | .negInf, .fin b => if b = 0 then .nan else if 0 < b then .negInf else .posInf
  | .posInf, .posInf => .posInf
  | .posInf, .negInf => .negInf
  | .negInf, .posInf => .negInf
  | .negInf, .negInf => .posInf

/-- `value.toFixed(1)` including the special values: `NaN.toFixed(1) = "NaN"`,
`Infinity.toFixed(1) = "Infinity"`. -/
def jsToFixed1Str : JSNum → String
  | .nan => "NaN"
  | .posInf => "Infinity"
  | .negInf => "-Infinity"
  | .fin q => toFixed1Str q

/-! ### charts.js: the vintage color theme -/

def VintageColors.primary : String := "#6A7A5A"

def VintageColors.secondary : String := "#8DAF98"

def VintageColors.tertiary : String := "#BED2BA"

def VintageColors.accent : String := "#D7CBB2"

def VintageColors.complement : String := "#A8C7BA"

/-- Extended palette for multiple data series (10 entries). -/
def VintageColors.palette : List String :=
  ["#6A7A5A", "#8DAF98", "#BED2BA", "#D7CBB2", "#A8C7BA",
   "#7A8B6A", "#9DBF88", "#CEE2CA", "#E2D6C2", "#B8D7CA"]

/-- Income colors, greens (6 entries). -/
def VintageColors.income : List String :=
  ["#6A7A5A", "#8DAF98", "#BED2BA", "#A8C7BA", "#7A8B6A", "#9DBF88"]

/-- Expense colors, warm tones (6 entries). -/
def VintageColors.expense : List String :=
  ["#BF8A7D", "#D7CBB2", "#C7B299", "#B8A485", "#A99571", "#9A875D"]

/-- Value of one hexadecimal digit character (`parseInt(·, 16)` on one char;
the palette strings only ever feed valid digits into it). -/
def hexDigitVal (c : Char) : Nat :=
  if '0' ≤ c ∧ c ≤ '9' then c.toNat - 48
  else if 'a' ≤ c ∧ c ≤ 'f' then c.toNat - 87
  else if 'A' ≤ c ∧ c ≤ 'F' then c.toNat - 55
  else 0

/-- Rendering of the alpha channel in a template literal: JavaScript prints
`0.1` as `"0.1"` and whole numbers without a decimal point. (Exact for the
alphas `0.1` and `0.3` the module uses.) -/
def jsNumStr (q : ℚ) : String :=
  if q.den = 1 then ⟨intDigits q.num⟩ else toFixed1Str q

/-- `hexToRgba(hex, alpha)`: parse `"#rrggbb"` and produce
`"rgba(r, g, b, alpha)"`. -/
def hexToRgba (hex : String) (alpha : ℚ) : String :=
  let r := 16 * hexDigitVal (hex.data.getD 1 '0') + hexDigitVal (hex.data.getD 2 '0')
  let g := 16 * hexDigitVal (hex.data.getD 3 '0') + hexDigitVal (hex.data.getD 4 '0')
  let b := 16 * hexDigitVal (hex.data.getD 5 '0') + hexDigitVal (hex.data.getD 6 '0')
  "rgba(" ++ (⟨natDigits r⟩ : String) ++ ", " ++ (⟨natDigits g⟩ : String) ++ ", " ++
    (⟨natDigits b⟩ : String) ++ ", " ++ jsNumStr alpha ++ ")"

/-! ### charts.js: createMonthlyTrendChart -/

/-- One entry of the pre-aggregated monthly data handed to the trend chart. -/
structure TrendPoint where
  month : String
  income : ℚ
  expense : ℚ
  balance : ℚ

/-- One line dataset of the trend chart (the configuration fields that carry
data or distinguish the three series; fixed point-styling options omitted). -/
structure LineDataset where
  label : String
  data : List ℚ
  borderColor : String
  backgroundColor : String
  fill : Bool

/-- The `data:` block of the Chart.js config built by
`createMonthlyTrendChart` (the canvas context and animation options play no
role in the data contract). -/
structure TrendChart where
  labels : List String
  datasets : List LineDataset

/-- `createMonthlyTrendChart(ctx, data)`: three series — Income, Expenses,
Net Balance — over one shared label axis. -/
def createMonthlyTrendChart (data : List TrendPoint) : TrendChart :=
  { labels := data.map (·.month)
    datasets :=
      [{ label := "Income"
         data := data.map (·.income)
         borderColor := VintageColors.primary
         backgroundColor := hexToRgba VintageColors.primary (1/10)
         fill := false },
       { label := "Expenses"
         data := data.map (·.expense)
         borderColor := VintageColors.expense.getD 0 ""
         backgroundColor := hexToRgba (VintageColors.expense.getD 0 "") (1/10)
         fill := false },
       { label := "Net Balance"
         data := data.map (·.balance)
         borderColor := VintageColors.secondary
         backgroundColor := hexToRgba VintageColors.secondary (1/10)
         fill := true }] }

/-- The y-axis tick callback of the trend chart (and of the bar chart):
`'$' + value.toFixed(0)`. -/
def trendTickLabel (value : ℚ) : String := ⟨'$' :: toFixed0Chars value⟩

/-- The tooltip label callback of the trend chart (and of the bar chart):
`context.dataset.label + ': $' + context.parsed.y.toFixed(2)`. -/
def trendTooltipLabel (datasetLabel : String) (y : ℚ) : String :=
  datasetLabel ++ ": $" ++ toFixed2Str y

/-! ### charts.js: createCategoryDoughnutChart -/

/-- The single-dataset `data:` block built by `createCategoryDoughnutChart`. -/
structure DoughnutChart where
  labels : List String
  data : List ℚ
  backgroundColor : List String

/-- `type === 'income' ? VintageColors.income : VintageColors.expense`. -/
def doughnutColorsFor (ty : String) : List String :=
  if ty = "income" then VintageColors.income else VintageColors.expense

/-- `createCategoryDoughnutChart(ctx, labels, values, type)`: the slice colors
are `colors.slice(0, labels.length)`. -/
def createCategoryDoughnutChart (labels : List String) (values : List ℚ) (ty : String) :
    DoughnutChart :=
  { labels := labels
    data := values
    backgroundColor := (doughnutColorsFor ty).take labels.length }

/-- The percentage part of the doughnut tooltip:
`((value / total) * 100).toFixed(1)` where
`total = context.dataset.data.reduce((a, b) => a + b, 0)`. -/
def doughnutTooltipPct (value : ℚ) (data : List ℚ) : String :=
  jsToFixed1Str (jsMul (jsDiv (JSNum.fin value) (JSNum.fin (data.foldl (· + ·) 0))) (JSNum.fin 100))

/-- The doughnut tooltip label:
`label + ': $' + value.toFixed(0) + ' (' + percentage + '%)'`. -/
def doughnutTooltipLabel (label : String) (value : ℚ) (data : List ℚ) : String :=
  label ++ ": $" ++ toFixed0Str value ++ " (" ++ doughnutTooltipPct value data ++ "%)"

/-- `calculatePercentage(value, total)`:
`total > 0 ? ((value / total) * 100).toFixed(1) : 0` — a string in the guarded
branch, the number `0` otherwise (the JS function is heterogeneous). -/
def calculatePercentage (value total : ℚ) : String ⊕ ℚ :=
  if 0 < total then Sum.inl (toFixed1Str (value / total * 100)) else Sum.inr 0

/-! ### charts.js: createBarChart -/

/-- A caller-supplied bar dataset (`{ label, data }`) before theming. -/
structure BarDatasetIn where
  label : String
  data : List ℚ

/-- A themed bar dataset as built by `createBarChart`. -/
structure BarDataset where
  label : String
  data : List ℚ
  backgroundColor : String
  borderColor : String
  borderWidth : Nat
  borderRadius : Nat
  borderSkipped : Bool

/-- The `data:` block built by `createBarChart`. -/
structure BarChart where
  labels : List String
  datasets : List BarDataset

/-- `createBarChart(ctx, labels, datasets)`: each dataset is spread and given
`VintageColors.palette[index % VintageColors.palette.length]` as its colors.
(The JS index expression is always in range; `getD` is exact here.) -/
def createBarChart (labels : List String) (datasets : List BarDatasetIn) : BarChart :=
  { labels := labels
    datasets := jsMapIdx (fun index dataset =>
      { label := dataset.label
        data := dataset.data
        backgroundColor := VintageColors.palette.getD (index % VintageColors.palette.length) ""
        borderColor := VintageColors.palette.getD (index % VintageColors.palette.length) ""
        borderWidth := 1
        borderRadius := 4
        borderSkipped := false }) datasets }

/-! ### charts.js: formatCurrency, updateChartData, destroyChart -/

/-- Insert the en-US thousands separators into a reversed digit list
(a comma after every third digit from the right). -/
def commifyRev : List Char → Nat → List Char
  | [], _ => []
  | c :: cs, i =>
    if 0 < i ∧ i % 3 = 0 then ',' :: c :: commifyRev cs (i + 1)
    else c :: commifyRev cs (i + 1)

/-- `Intl.NumberFormat` default rounding (`halfExpand`): ties away from zero. -/
def intlRound0 (q : ℚ) : Int :=
  if q < 0 then -(Rat.floor (-q + 1/2)) else Rat.floor (q + 1/2)

/-- `formatCurrency(value)`: `Intl.NumberFormat('en-US', { style: 'currency',
currency: 'USD', minimumFractionDigits: 0, maximumFractionDigits: 0 })`,
e.g. `"$1,235"`, `"-$5"` — never a decimal point. -/
def formatCurrency (value : ℚ) : String :=
  ⟨(if intlRound0 value < 0 then ['-'] else []) ++
    '$' :: (commifyRev (natDigits (intlRound0 value).natAbs).reverse 0).reverse⟩

/-- One dataset of a live chart handle, as touched by `updateChartData`. -/
structure ChartDataset where
  label : String
  backgroundColor : String
  data : List ℚ
deriving DecidableEq

/-- A live chart handle. `optionsRepr` stands opaquely for the immutable
options object; `updateCount` counts `chart.update()` redraws; `destroyed`
records whether `chart.destroy()` has released the canvas resources. -/
structure Chart where
  chartType : String
  labels : List String
  datasets : List ChartDataset
  optionsRepr : String
  destroyed : Bool
  updateCount : Nat
deriving DecidableEq

/-- `updateChartData(chart, newLabels, newData)`: assigns `chart.data.labels`,
assigns `newData[index] || []` to each dataset's `data` in place, and calls
`chart.update()`. The record update models in-place mutation of the same
handle: every field not written by the function is carried over unchanged. -/
def updateChartData (chart : Chart) (newLabels : List String) (newData : List (List ℚ)) :
    Chart :=
  { chart with
      labels := newLabels
      datasets := jsMapIdx
        (fun index dataset => { dataset with data := (newData[index]?).getD [] })
        chart.datasets
      updateCount := chart.updateCount + 1 }

/-- An uncaught JavaScript exception. -/
inductive JsException where
  | referenceError (name : String)
  | typeError (msg : String)
deriving DecidableEq

/-- `chart.destroy()` of the charting library: releases the canvas; calling it
on an already-destroyed chart is a no-op (it never throws). -/
def chartDestroy (c : Chart) : Chart := { c with destroyed := true }

/-- An unguarded `chart.destroy()` member call: on `null`/`undefined` it would
throw a `TypeError`; on a chart object it runs `destroy`. -/
def jsCallDestroyMethod : Option Chart → Except JsException (Option Chart)
  | none => Except.error (JsException.typeError "Cannot read properties of null")
  | some c => Except.ok (some (chartDestroy c))

/-- `destroyChart(chart)`: `if (chart && typeof chart.destroy === 'function')
chart.destroy()`. On chart objects `destroy` is always a function, so the
truthiness test is the operative guard. -/
def destroyChart (chart : Option Chart) : Except JsException (Option Chart) :=
  if chart.isSome then jsCallDestroyMethod chart else Except.ok chart

/-! ### main.js: notification toasts -/

/-- A DOM element as far as this module observes it: its class list and its
message content (the toast template's fixed icon/close-button markup and
inline styling are presentation only and carry no state). -/
structure DomElement where
  classes : List String
  content : String
deriving DecidableEq

/-- The toast element `showNotification` creates: class
`notification-toast vintage-alert vintage-alert-(error|success)` with the
message as content. -/
def mkNotification (message ty : String) : DomElement :=
  { classes := ["notification-toast", "vintage-alert",
      if ty = "error" then "vintage-alert-error" else "vintage-alert-success"]
    content := message }

/-- Membership test for `document.querySelectorAll('.notification-toast')`. -/
def isNotificationToast (e : DomElement) : Bool :=
  e.classes.contains "notification-toast"

/-- `showNotification(message, type)` acting on `document.body`'s children:
first every existing `.notification-toast` element is removed, then the one
new toast is appended. (The 5-second auto-dismiss timer and the entry
animation do not change which elements exist at return time.) -/
def showNotification (message ty : String) (body : List DomElement) : List DomElement :=
  (body.filter (fun e => !(isNotificationToast e))) ++ [mkNotification message ty]

/-! ### main.js: handleFormSubmit -/

/-- The submit button's observable state. -/
structure SubmitButton where
  disabled : Bool
  innerHTML : String
deriving DecidableEq

/-- A `[required]` form field: its value and whether it currently carries the
`is-invalid` class. -/
structure ReqField where
  value : String
  isInvalid : Bool
deriving DecidableEq

/-- The state `handleFormSubmit` reads and writes: the form's submit button
(if any), its required fields, whether `event.preventDefault()` has been
called, and the document body (for toasts). -/
structure FormState where
  submitButton : Option SubmitButton
  requiredFields : List ReqField
  defaultPrevented : Bool
  body : List DomElement
deriving DecidableEq

/-- The busy label assigned while submitting. -/
def processingHTML : String :=
  "<i data-feather=\"loader\" class=\"spinning\"></i> Processing..."

/-- JavaScript `String.prototype.trim` whitespace (the characters this
module's field values can contain). -/
def jsIsWhitespace (c : Char) : Bool :=
  c = ' ' || c = '\t' || c = '\n' || c = '\r' || c = '\x0b' || c = '\x0c'

/-- `value.trim()`. -/
def jsTrim (s : String) : String :=
  ⟨((s.data.dropWhile jsIsWhitespace).reverse.dropWhile jsIsWhitespace).reverse⟩

/-- `handleFormSubmit(event)` translated step by step. `const originalText`
is declared inside the `if (submitButton)` block that swaps in the busy
label; the later `submitButton.innerHTML = originalText` on the invalid
path sits in a different block, where that name is not in scope, so reading
it throws a `ReferenceError` — after `preventDefault()` and
`submitButton.disabled = false` have already run, and before the error toast
is shown. The 3-second fallback timer only fires later and is outside this
synchronous step. -/
def handleFormSubmit (st : FormState) : FormState × Option JsException :=
  let st1 : FormState :=
    match st.submitButton with
    | some b => { st with submitButton := some { b with disabled := true, innerHTML := processingHTML } }
    | none => st
  let checked := st1.requiredFields.map (fun f => { f with isInvalid := jsTrim f.value == "" })
  let isValid := st1.requiredFields.all (fun f => !(jsTrim f.value == ""))
  let st2 : FormState := { st1 with requiredFields := checked }
  if isValid then
    (st2, none)
  else
    let st3 : FormState := { st2 with defaultPrevented := true }
    match st3.submitButton with
    | some b =>
      ({ st3 with submitButton := some { b with disabled := false } },
        some (JsException.referenceError "originalText"))
    | none =>
      ({ st3 with body := showNotification "Please fill in all required fields." "error" st3.body },
        none)

/-! ### main.js: amount input formatting and validation -/

/-- Digit run to a natural number. -/
def digitsToNat (ds : List Char) : Nat :=
  ds.foldl (fun acc c => 10 * acc + (c.toNat - 48)) 0

/-- Optional sign at the head of the input; `true` means negative. -/
def parseSignChars : List Char → Bool × List Char
  | '-' :: cs => (true, cs)
  | '+' :: cs => (false, cs)
  | cs => (false, cs)

/-- The optional exponent suffix `e`/`E` sign? digits of a JS number literal;
an incomplete suffix (no digits) contributes exponent `0`, as `parseFloat`
stops before it. -/
def parseExpPart : List Char → Int
  | 'e' :: cs => parseExpDigits cs
  | 'E' :: cs => parseExpDigits cs
  | _ => 0
where
  parseExpDigits (cs : List Char) : Int :=
    let (neg, cs1) := parseSignChars cs
    let ds := cs1.takeWhile Char.isDigit
    if ds.isEmpty then 0
    else if neg then -(digitsToNat ds : Int) else (digitsToNat ds : Int)

/-- `parseFloat(value)` on the decimal-notation inputs this form handles:
skip leading whitespace, optional sign, longest run `digits [. digits]
[e sign? digits]`; `none` models `NaN` (no parsable prefix). The literals
`Infinity`/`-Infinity`, which no amount field produces, are not modelled. -/
def parseFloatQ (s : String) : Option ℚ :=
  let cs := s.data.dropWhile jsIsWhitespace
  let (neg, cs1) := parseSignChars cs
  let intDs := cs1.takeWhile Char.isDigit
  let rest := cs1.dropWhile Char.isDigit
  let fracDs :=
    match rest with
    | '.' :: cs2 => cs2.takeWhile Char.isDigit
    | _ => []
  let afterFrac :=
    match rest with
    | '.' :: cs2 => cs2.dropWhile Char.isDigit
    | _ => rest
  if intDs.isEmpty ∧ fracDs.isEmpty then none
  else
    let mant : Int :=
      (if neg then -1 else 1) *
        ((digitsToNat intDs : Int) * ((10 : Int) ^ fracDs.length) + (digitsToNat fracDs : Int))
    let e := parseExpPart afterFrac
    if e < 0 then some (mkRat mant ((10 : Nat) ^ fracDs.length * (10 : Nat) ^ e.natAbs))
    else some (mkRat (mant * (10 : Int) ^ e.natAbs) ((10 : Nat) ^ fracDs.length))

/-- `formatAmountInput` (blur handler): if the value parses and is positive,
the field value becomes `value.toFixed(2)`; otherwise it is left unchanged. -/
def formatAmountInput (value : String) : String :=
  match parseFloatQ value with
  | none => value
  | some v => if 0 < v then toFixed2Str v else value

/-- `validateAmountInput` (input handler): returns whether the field carries
`is-invalid` after the event — added iff `isNaN(value) || value <= 0`,
removed otherwise. -/
def validateAmountInput (value : String) : Bool :=
  match parseFloatQ value with
  | none => true
  | some v => if v ≤ 0 then true else false

/-! ### Concrete states used as evaluation inputs -/

/-- A form with a submit button and one whitespace-only required field. -/
def invalidSubmitState : FormState :=
  { submitButton := some { disabled := false, innerHTML := "Save" }
    requiredFields := [{ value := "   ", isInvalid := false }]
    defaultPrevented := false
    body := [] }

/-- A live bar chart with two datasets. -/
def sampleChart : Chart :=
  { chartType := "bar"
    labels := ["Jan"]
    datasets := [{ label := "Income", backgroundColor := "#6A7A5A", data := [1] },
                 { label := "Expenses", backgroundColor := "#BF8A7D", data := [2] }]
    optionsRepr := "defaultChartOptions"
    destroyed := false
    updateCount := 0 }

/-! ### Supporting lemmas -/

theorem jsMapIdxGo_getElem? (f : Nat → α → β) (l : List α) :
    ∀ (k i : Nat), (jsMapIdxGo f k l)[i]? = (l[i]?).map (f (k + i)) := by
  induction l with
  | nil => intro k i; simp [jsMapIdxGo]
  | cons a as ih =>
    intro k i
    cases i with
    | zero => simp [jsMapIdxGo]
    | succ i => simpa [jsMapIdxGo, Nat.add_assoc, Nat.add_comm 1 i] using ih (k + 1) i

theorem jsMapIdx_getElem? (f : Nat → α → β) (l : List α) (i : Nat) :
    (jsMapIdx f l)[i]? = (l[i]?).map (f i) := by
  simpa using jsMapIdxGo_getElem? f l 0 i

theorem jsMapIdxGo_length (f : Nat → α → β) (l : List α) :
    ∀ k, (jsMapIdxGo f k l).length = l.length := by
  induction l with
  | nil => intro k; rfl
  | cons a as ih => intro k; simpa [jsMapIdxGo] using ih (k + 1)

theorem jsMapIdx_length (f : Nat → α → β) (l : List α) :
    (jsMapIdx f l).length = l.length :=
  jsMapIdxGo_length f l 0

theorem getElem?_take_eq (l : List α) :
    ∀ (n i : Nat), (l.take n)[i]? = if i < n then l[i]? else none := by
  induction l with
  | nil => intro n i; simp
  | cons a as ih =>
    intro n i
    cases n with
    | zero => simp
    | succ n =>
      cases i with
      | zero => simp
      | succ i => simpa [Nat.succ_lt_succ_iff] using ih n i

theorem natDigitsAux_mem :
    ∀ (fuel n : Nat), ∀ c ∈ natDigitsAux fuel n, ∃ d, d < 10 ∧ c = digitChar d := by
  intro fuel
  induction fuel with
  | zero => intro n c hc; simp [natDigitsAux] at hc
  | succ fuel ih =>
    intro n c hc
    simp only [natDigitsAux] at hc
    split at hc
    · next h => rw [List.mem_singleton] at hc; exact ⟨n, h, hc⟩
    · next h =>
      rcases List.mem_append.mp hc with h1 | h2
      · exact ih (n / 10) c h1
      · rw [List.mem_singleton] at h2
        exact ⟨n % 10, Nat.mod_lt _ (by omega), h2⟩

theorem digitChar_ne_dot {d : Nat} (h : d < 10) : digitChar d ≠ '.' := by
  interval_cases d <;> decide

theorem digitChar_isDigit {d : Nat} (h : d < 10) : (digitChar d).isDigit = true := by
  interval_cases d <;> decide

theorem not_dot_mem_natDigits (n : Nat) : '.' ∉ natDigits n := by
  intro h
  obtain ⟨d, hd, hc⟩ := natDigitsAux_mem (n + 1) n '.' h
  exact digitChar_ne_dot hd hc.symm

theorem not_dot_mem_intDigits (n : Int) : '.' ∉ intDigits n := by
  unfold intDigits
  split
  · intro h
    rcases List.mem_cons.mp h with h | h
    · exact absurd h (by decide)
    · exact not_dot_mem_natDigits _ h
  · exact not_dot_mem_natDigits _

theorem mem_commifyRev (l : List Char) :
    ∀ (i : Nat), ∀ c ∈ commifyRev l i, c = ',' ∨ c ∈ l := by
  induction l with
  | nil => intro i c hc; simp [commifyRev] at hc
  | cons a as ih =>
    intro i c hc
    simp only [commifyRev] at hc
    split at hc
    · rcases List.mem_cons.mp hc with h | h
      · exact Or.inl h
      · rcases List.mem_cons.mp h with h1 | h1
        · exact Or.inr (h1 ▸ List.mem_cons_self a as)
        · rcases ih (i + 1) c h1 with h2 | h2
          · exact Or.inl h2
          · exact Or.inr (List.mem_cons_of_mem a h2)
    · rcases List.mem_cons.mp hc with h | h
      · exact Or.inr (h ▸ List.mem_cons_self a as)
      · rcases ih (i + 1) c h with h2 | h2
        · exact Or.inl h2
        · exact Or.inr (List.mem_cons_of_mem a h2)

theorem filter_filter_not (p : α → Bool) (l : List α) :
    (l.filter (fun a => !(p a))).filter p = [] := by
  induction l with
  | nil => rfl
  | cons a as ih => cases h : p a <;> simp [List.filter_cons, h, ih]

theorem isNotificationToast_mkNotification (message ty : String) :
    isNotificationToast (mkNotification message ty) = true := rfl

/-! ### The claims -/

/-- C1, as stated, is false: the doughnut constructor truncates the kind
palette (`colors.slice(0, labels.length)`) instead of cycling it, so with
seven labels slice 6 gets no color at all, while
`palette("income")[6 mod 6]` would be the first green. -/
theorem doughnut_colors_not_cyclic :
    ¬ (∀ (labels : List String) (values : List ℚ) (ty : String) (i : Nat),
        (ty = "income" ∨ ty = "expense") → i < labels.length →
        (createCategoryDoughnutChart labels values ty).backgroundColor[i]? =
          (doughnutColorsFor ty)[i % (doughnutColorsFor ty).length]?) := by
  intro h
  have h7 := h ["a", "b", "c", "d", "e", "f", "g"] [] "income" 6 (Or.inl rfl) (by decide)
  revert h7
  decide

/-- C1 (amended): bar datasets do cycle the shared palette — dataset `i` gets
`palette[i mod palette.length]` — but doughnut slice colors are truncated,
not cycled: slice `i` gets `palette(kind)[i]` when `i < labels.length`, hence
no color at all once `i` reaches the six-entry kind palette's length. -/
theorem chart_color_assignment :
    (∀ (labels : List String) (datasets : List BarDatasetIn) (i : Nat),
        ((createBarChart labels datasets).datasets[i]?).map BarDataset.backgroundColor =
          (datasets[i]?).map (fun _ => VintageColors.palette.getD (i % VintageColors.palette.length) "")) ∧
    (∀ (labels : List String) (values : List ℚ) (ty : String) (i : Nat),
        (createCategoryDoughnutChart labels values ty).backgroundColor[i]? =
          if i < labels.length then (doughnutColorsFor ty)[i]? else none) := by
  constructor
  · intro labels datasets i
    simp only [createBarChart, jsMapIdx_getElem?]
    cases datasets[i]? <;> rfl
  · intro labels values ty i
    simpa [createCategoryDoughnutChart] using
      getElem?_take_eq (doughnutColorsFor ty) labels.length i

/-- C2, as stated, is false at a zero-sum dataset: the doughnut tooltip has
no zero-total guard, so on dataset `[0, 0]` the slice percentage renders as
`"NaN"`, not as zero percent. -/
theorem doughnut_zero_total_reports_nan :
    doughnutTooltipPct 0 [0, 0] = "NaN" ∧ ("NaN" : String) ≠ "0.0" ∧ ("NaN" : String) ≠ "0" :=
  ⟨by decide, by decide, by decide⟩

/-- C2 (amended): `calculatePercentage(v, 0)` does guard and returns the
number `0` for every `v`, but the doughnut tooltip's percentage-of-total
computation is unguarded: whenever the dataset sums to zero it renders
`"NaN"` (zero slice) or `"Infinity"`/`"-Infinity"` (nonzero slice), never a
zero percentage. -/
theorem zero_total_percentage :
    (∀ value : ℚ, calculatePercentage value 0 = Sum.inr 0) ∧
    (∀ (value : ℚ) (data : List ℚ), data.foldl (· + ·) 0 = 0 →
      doughnutTooltipPct value data = "NaN" ∨ doughnutTooltipPct value data = "Infinity" ∨
        doughnutTooltipPct value data = "-Infinity") := by
  refine ⟨fun value => ?_, fun value data h => ?_⟩
  · simp [calculatePercentage]
  · unfold doughnutTooltipPct
    rw [h]
    rcases lt_trichotomy value 0 with hv | hv | hv
    · right; right
      have hd : jsDiv (JSNum.fin value) (JSNum.fin 0) = JSNum.negInf := by
        simp [jsDiv, hv.ne, not_lt.mpr hv.le]
      rw [hd]; decide
    · subst hv; left; decide
    · right; left
      have hd : jsDiv (JSNum.fin value) (JSNum.fin 0) = JSNum.posInf := by
        simp [jsDiv, hv.ne', hv]
      rw [hd]; decide

/-- Witness for the amended C2 at the concrete zero-sum dataset `[0, 0]`. -/
theorem zero_total_percentage_witness :
    ([(0 : ℚ), 0].foldl (· + ·) 0 = 0) ∧
    (doughnutTooltipPct 0 [0, 0] = "NaN" ∨ doughnutTooltipPct 0 [0, 0] = "Infinity" ∨
      doughnutTooltipPct 0 [0, 0] = "-Infinity") :=
  ⟨by decide, zero_total_percentage.2 0 [0, 0] (by decide)⟩

/-- C3: evidence for the scoping defect. On a form with a submit button and a
whitespace-only required field, `handleFormSubmit` does cancel the
submission, mark the field invalid and re-enable the button, but then throws
`ReferenceError: originalText` (the `const` lives in the earlier
`if (submitButton)` block), so the button label stays on the busy text and
the error toast is never shown. -/
theorem submit_invalid_field_throws :
    handleFormSubmit invalidSubmitState =
      ({ submitButton := some { disabled := false, innerHTML := processingHTML }
         requiredFields := [{ value := "   ", isInvalid := true }]
         defaultPrevented := true
         body := [] },
        some (JsException.referenceError "originalText")) := by decide

/-- C4: for every points sequence the trend chart has exactly three series
(Income, Expenses, Net Balance), each as long as the input, and the empty
input yields an empty chart (empty labels, three empty series) rather than
an error — the constructor is total. -/
theorem trend_chart_three_series (data : List TrendPoint) :
    (createMonthlyTrendChart data).datasets.length = 3 ∧
    (createMonthlyTrendChart data).datasets.map (fun d => d.data.length) =
      [data.length, data.length, data.length] ∧
    (createMonthlyTrendChart data).labels.length = data.length ∧
    (createMonthlyTrendChart []).labels = ([] : List String) ∧
    (createMonthlyTrendChart []).datasets.map LineDataset.data = [[], [], []] := by
  refine ⟨rfl, ?_, ?_, rfl, rfl⟩
  · simp [createMonthlyTrendChart]
  · simp [createMonthlyTrendChart]

/-- C5: chart axis ticks (`'$' + value.toFixed(0)`) and the zero-decimal
`formatCurrency` never contain a decimal point, while the detailed tooltip
amount (`label + ': $' + y.toFixed(2)`) always ends in a point followed by
exactly two digits. -/
theorem currency_precision_rules :
    (∀ value : ℚ, '.' ∉ (trendTickLabel value).data) ∧
    (∀ value : ℚ, '.' ∉ (formatCurrency value).data) ∧
    (∀ (datasetLabel : String) (y : ℚ),
      trendTooltipLabel datasetLabel y = datasetLabel ++ ": $" ++ toFixed2Str y ∧
      ∃ pre d1 d2, (toFixed2Str y).data = pre ++ '.' :: [d1, d2] ∧
        '.' ∉ pre ∧ d1.isDigit = true ∧ d2.isDigit = true) := by
  refine ⟨fun value => ?_, fun value => ?_, fun datasetLabel y => ⟨rfl, ?_⟩⟩
  · intro hmem
    rcases List.mem_cons.mp hmem with h | h
    · exact absurd h (by decide)
    · exact not_dot_mem_intDigits _ h
  · intro hmem
    rcases List.mem_append.mp hmem with h | h
    · split at h
      · exact absurd (List.mem_singleton.mp h) (by decide)
      · exact absurd h (List.not_mem_nil '.')
    · rcases List.mem_cons.mp h with h1 | h1
      · exact absurd h1 (by decide)
      · rcases mem_commifyRev _ 0 '.' (List.mem_reverse.mp h1) with h2 | h2
        · exact absurd h2 (by decide)
        · exact not_dot_mem_natDigits _ (List.mem_reverse.mp h2)
  · refine ⟨(if toFixed2Int y < 0 then ['-'] else []) ++
      natDigits ((toFixed2Int y).natAbs / 100),
      digitChar ((toFixed2Int y).natAbs / 10 % 10),
      digitChar ((toFixed2Int y).natAbs % 10), rfl, ?_, ?_, ?_⟩
    · intro hmem
      rcases List.mem_append.mp hmem with h | h
      · split at h
        · exact absurd (List.mem_singleton.mp h) (by decide)
        · exact absurd h (List.not_mem_nil '.')
      · exact not_dot_mem_natDigits _ h
    · exact digitChar_isDigit (Nat.mod_lt _ (by omega))
    · exact digitChar_isDigit (Nat.mod_lt _ (by omega))

/-- C6: after any `showNotification` call, exactly one `.notification-toast`
element exists in the body, and it is the toast of that newest call (so a
second notification replaces the first). -/
theorem single_toast_invariant (body : List DomElement) (message ty : String) :
    (showNotification message ty body).filter isNotificationToast =
      [mkNotification message ty] := by
  unfold showNotification
  rw [List.filter_append, filter_filter_not]
  simp [List.filter_cons, isNotificationToast_mkNotification]

/-- C7: on blur, a value parsing to a positive number is reformatted to two
decimals and any other value is left unchanged; on input, the field is
flagged invalid exactly when the value does not parse as a positive number
(`NaN` or `≤ 0`). -/
theorem amount_input_rules (s : String) :
    (∀ v : ℚ, parseFloatQ s = some v → 0 < v → formatAmountInput s = toFixed2Str v) ∧
    (∀ v : ℚ, parseFloatQ s = some v → v ≤ 0 → formatAmountInput s = s) ∧
    (parseFloatQ s = none → formatAmountInput s = s) ∧
    (validateAmountInput s = true ↔
      parseFloatQ s = none ∨ ∃ v, parseFloatQ s = some v ∧ v ≤ 0) := by
  refine ⟨?_, ?_, ?_, ?_⟩
  · intro v hp hv; simp [formatAmountInput, hp, hv]
  · intro v hp hv; simp [formatAmountInput, hp, not_lt.mpr hv]
  · intro hp; simp [formatAmountInput, hp]
  · cases hp : parseFloatQ s with
    | none => simp [validateAmountInput, hp]
    | some v => by_cases hv : v ≤ 0 <;> simp [validateAmountInput, hp, hv]

/-- Witness for C7 at the spec's own examples: `"12"` reformats to `"12.00"`
on blur, `"-5"` and `"abc"` are flagged invalid on input. -/
theorem amount_input_rules_witness :
    (parseFloatQ "12" = some 12 ∧ formatAmountInput "12" = "12.00") ∧
    validateAmountInput "-5" = true ∧ validateAmountInput "abc" = true := by
  refine ⟨⟨by decide, ((amount_input_rules "12").1 12 (by decide) (by decide)).trans (by decide)⟩,
    ?_, ?_⟩
  · exact (amount_input_rules "-5").2.2.2.mpr (Or.inr ⟨-5, by decide, by decide⟩)
  · exact (amount_input_rules "abc").2.2.2.mpr (Or.inl (by decide))

/-- C8: `updateChartData` only rewrites the labels, the per-dataset values
and the redraw counter of the same handle: chart type, options, destroyed
flag, the number of datasets and every dataset's non-data fields are carried
over unchanged, and dataset `i`'s values become `newData[i] || []`. -/
theorem update_preserves_chart_frame (chart : Chart) (newLabels : List String)
    (newData : List (List ℚ)) :
    (updateChartData chart newLabels newData).chartType = chart.chartType ∧
    (updateChartData chart newLabels newData).optionsRepr = chart.optionsRepr ∧
    (updateChartData chart newLabels newData).destroyed = chart.destroyed ∧
    (updateChartData chart newLabels newData).labels = newLabels ∧
    (updateChartData chart newLabels newData).updateCount = chart.updateCount + 1 ∧
    (updateChartData chart newLabels newData).datasets.length = chart.datasets.length ∧
    (∀ i : Nat, ((updateChartData chart newLabels newData).datasets[i]?).map ChartDataset.label =
      (chart.datasets[i]?).map ChartDataset.label) ∧
    (∀ i : Nat, ((updateChartData chart newLabels newData).datasets[i]?).map
        ChartDataset.backgroundColor =
      (chart.datasets[i]?).map ChartDataset.backgroundColor) ∧
    (∀ i : Nat, ((updateChartData chart newLabels newData).datasets[i]?).map ChartDataset.data =
      (chart.datasets[i]?).map (fun _ : ChartDataset => (newData[i]?).getD [])) := by
  refine ⟨rfl, rfl, rfl, rfl, rfl, jsMapIdx_length _ chart.datasets, ?_, ?_, ?_⟩ <;>
    · intro i
      simp only [updateChartData, jsMapIdx_getElem?]
      cases chart.datasets[i]? <;> rfl

/-- C9: `destroyChart` is safe on an absent handle and safe to chain — the
guarded call never surfaces the `TypeError` that an unguarded member call on
`null` would raise, and destroying an already-destroyed chart succeeds too. -/
theorem destroy_absent_or_destroyed_noop (chart : Option Chart) :
    (∃ r, destroyChart chart = Except.ok r ∧ ∃ r2, destroyChart r = Except.ok r2) ∧
    destroyChart (none : Option Chart) = Except.ok none := by
  constructor
  · cases chart with
    | none => exact ⟨none, rfl, none, rfl⟩
    | some c => exact ⟨some (chartDestroy c), rfl, some (chartDestroy (chartDestroy c)), rfl⟩
  · rfl

/-- C10: when `newData` covers fewer datasets than the chart has, every
uncovered dataset's values are replaced by the empty array
(`newData[index] || []` with `newData[index]` undefined), not left as they
were. -/
theorem update_short_series_clears (chart : Chart) (newLabels : List String)
    (newData : List (List ℚ)) (i : Nat) (hlen : newData.length ≤ i)
    (hi : i < chart.datasets.length) :
    ((updateChartData chart newLabels newData).datasets[i]?).map ChartDataset.data =
      some [] := by
  have h1 : newData[i]? = none := List.getElem?_eq_none hlen
  have h2 : chart.datasets[i]? = some chart.datasets[i] := List.getElem?_eq_getElem hi
  simp [updateChartData, jsMapIdx_getElem?, h1, h2]

/-- Witness for C10: updating a two-dataset chart with a one-entry series
list silently clears the second dataset. -/
theorem update_short_series_clears_witness :
    ([[(5 : ℚ)]].length ≤ 1) ∧ (1 < sampleChart.datasets.length) ∧
    ((updateChartData sampleChart ["Feb"] [[(5 : ℚ)]]).datasets[1]?).map ChartDataset.data =
      some [] :=
  ⟨by decide, by decide,
    update_short_series_clears sampleChart ["Feb"] [[(5 : ℚ)]] 1 (by decide) (by decide)⟩

end VintageFinance
